import Mathlib

/-!
Verification of the InterProScan pipeline (`src/extract_interpro_data.py`).

The script is shallowly embedded: network responses are passed in as explicit
oracle values (`HttpResponse`, `ResultResponse`), the mutable
`InterProScanPipeline.stats` dictionary becomes an explicit `Stats` record
threaded through every function, writes to disk become updates of an explicit
file-system map, and the calls the script makes to its own stages are recorded
in an explicit call trace.  The lock-protected helpers `add_error` and
`increment_stat` become atomic state updates; `time.sleep(check_interval)`
becomes an `elapsed` counter advancing by 30 (the hard-coded
`check_interval`), and `time.time() - start_time` becomes that counter.
-/

/-! ### Python string primitives

`str.strip`, `str.split('\n')` and `c in s` modelled structurally over the
character list of a string, so that they evaluate inside the kernel. -/

/-- Python `str.strip()`: remove leading and trailing whitespace. -/
def pyStrip (s : String) : String :=
  ⟨((s.data.dropWhile Char.isWhitespace).reverse.dropWhile Char.isWhitespace).reverse⟩

/-- Split a character list at every occurrence of `c` (Python `str.split(c)`:
an empty input yields one empty field). -/
def splitCharAux (c : Char) : List Char → List (List Char)
  | [] => [[]]
  | a :: rest =>
    let r := splitCharAux c rest
    if a = c then [] :: r
    else (a :: r.headD []) :: r.tail

/-- Python `s.split(c)` for a one-character separator. -/
def pySplit (s : String) (c : Char) : List String :=
  (splitCharAux c s.data).map fun cs => ⟨cs⟩

/-- Python `c in s` for a single character `c`. -/
def pyContainsChar (s : String) (c : Char) : Bool :=
  s.data.contains c

/-! ### Run statistics (`self.stats`) -/

/-- The keys of the `self.stats` dictionary whose values are counters. -/
inductive StatName where
  | total
  | sequences_fetched
  | interproscan_submitted
  | interproscan_completed
  | failed
deriving DecidableEq, Repr

/-- The `self.stats` dictionary: five counters plus the error list. -/
structure Stats where
  total : Nat
  sequences_fetched : Nat
  interproscan_submitted : Nat
  interproscan_completed : Nat
  failed : Nat
  errors : List String
deriving DecidableEq, Repr

/-- Read one counter of the statistics dictionary. -/
def statGet (s : Stats) : StatName → Nat
  | StatName.total => s.total
  | StatName.sequences_fetched => s.sequences_fetched
  | StatName.interproscan_submitted => s.interproscan_submitted
  | StatName.interproscan_completed => s.interproscan_completed
  | StatName.failed => s.failed

/-- `add_error`: append one message to `stats['errors']`.  The Python method
holds `self.lock` for the whole append, so it is modelled as one atomic
update. -/
def add_error (error : String) (s : Stats) : Stats :=
  { s with errors := s.errors ++ [error] }

/-- `increment_stat`: add one to the named counter.  The Python method holds
`self.lock` for the whole read-modify-write, so it is one atomic update. -/
def increment_stat (stat_name : StatName) (s : Stats) : Stats :=
  match stat_name with
  | StatName.total => { s with total := s.total + 1 }
  | StatName.sequences_fetched => { s with sequences_fetched := s.sequences_fetched + 1 }
  | StatName.interproscan_submitted => { s with interproscan_submitted := s.interproscan_submitted + 1 }
  | StatName.interproscan_completed => { s with interproscan_completed := s.interproscan_completed + 1 }
  | StatName.failed => { s with failed := s.failed + 1 }

/-! ### Pipeline state: statistics, file system, call trace -/

/-- Calls the pipeline makes to its stages and to the remote services,
recorded so that theorems can speak about which stages ran. -/
inductive Call where
  | fetchCall (uniprot_id : String)
  | submitCall (uniprot_id : String)
  | pollCall (job_id : String)
  | retrieveCall (job_id : String)
  | saveCall (uniprot_id : String)
deriving DecidableEq, Repr

/-- The file system: a map from path to file content.  `open(path, 'w')`
followed by writes replaces the full content at that path. -/
def FS : Type := String → Option String

/-- Writing a whole file: `open(path, 'w')` truncates, so the new content
replaces whatever was there. -/
def setFile (fs : FS) (path content : String) : FS :=
  fun q => if q = path then some content else fs q

/-- The state threaded through the embedded pipeline. -/
structure St where
  stats : Stats
  fs : FS
  calls : List Call

/-- Record one stage call in the trace. -/
def recordCall (st : St) (c : Call) : St :=
  { st with calls := st.calls ++ [c] }

/-- `self.add_error` lifted to the pipeline state. -/
def addErrorSt (error : String) (st : St) : St :=
  { st with stats := add_error error st.stats }

/-- `self.increment_stat` lifted to the pipeline state. -/
def incrementSt (stat_name : StatName) (st : St) : St :=
  { st with stats := increment_stat stat_name st.stats }

/-- The statistics dictionary as initialised in `__init__`. -/
def initStats : Stats :=
  { total := 0, sequences_fetched := 0, interproscan_submitted := 0,
    interproscan_completed := 0, failed := 0, errors := [] }

/-- Fresh pipeline state: initial statistics, empty file system, no calls. -/
def initSt : St :=
  { stats := initStats, fs := fun _ => none, calls := [] }

/-! ### Remote responses (the oracle for `requests`) -/

/-- Outcome of one HTTP request: a response with status code and body text,
or a raised exception (transport error). -/
inductive HttpResponse where
  | ok (statusCode : Nat) (body : String)
  | exn (msg : String)
deriving Repr

/-- Outcome of the result-retrieval request: a response carrying the parsed
JSON document (modelled as a key-value list; `response.json()` returns a
dictionary), or a raised exception. -/
inductive ResultResponse where
  | ok (statusCode : Nat) (doc : List (String × String))
  | exn (msg : String)
deriving Repr

/-! ### Stage functions -/

/-- `fetch_uniprot_sequence`: parse the FASTA response.  On HTTP 200 the body
is stripped and split on newlines; with at least two lines the header (minus
the leading marker) is the description and the joined remaining lines the
sequence, and `sequences_fetched` is incremented.  Any other case logs an
error and returns `None`. -/
def fetch_uniprot_sequence (uniprot_id : String) (resp : HttpResponse) (st : St) :
    Option (String × String) × St :=
  let st := recordCall st (Call.fetchCall uniprot_id)
  match resp with
  | HttpResponse.ok code body =>
    if code = 200 then
      let fasta_content := pyStrip body
      let lines := pySplit fasta_content (Char.ofNat 10)
      if 2 ≤ lines.length then
        let description : String := ⟨(lines.headD "").data.drop 1⟩
        let sequence := String.join lines.tail
        (some (sequence, description), incrementSt StatName.sequences_fetched st)
      else
        (none, addErrorSt (uniprot_id ++ ": Invalid FASTA format") st)
    else
      (none, addErrorSt (uniprot_id ++ ": UniProt fetch failed - HTTP " ++ toString code) st)
  | HttpResponse.exn e =>
    (none, addErrorSt (uniprot_id ++ ": UniProt fetch error - " ++ e) st)

/-- `submit_to_interproscan`: on HTTP 200 the stripped body is the job id and
`interproscan_submitted` is incremented; otherwise an error is logged and
`None` returned.  `email` and `sequence` only populate the POST form. -/
def submit_to_interproscan (email uniprot_id sequence : String) (resp : HttpResponse)
    (st : St) : Option String × St :=
  let _ := email
  let _ := sequence
  let st := recordCall st (Call.submitCall uniprot_id)
  match resp with
  | HttpResponse.ok code body =>
    if code = 200 then
      (some (pyStrip body), incrementSt StatName.interproscan_submitted st)
    else
      (none, addErrorSt (uniprot_id ++ ": InterProScan submission failed - HTTP " ++ toString code) st)
  | HttpResponse.exn e =>
    (none, addErrorSt (uniprot_id ++ ": InterProScan submission error - " ++ e) st)

/-- The status string `check_job_status` computes from one response: the
stripped body on HTTP 200, and the literal `"ERROR"` on a non-200 status or a
raised exception. -/
def statusText (resp : HttpResponse) : String :=
  match resp with
  | HttpResponse.ok code body => if code = 200 then pyStrip body else "ERROR"
  | HttpResponse.exn _ => "ERROR"

/-- `check_job_status`: one status poll; records the poll and returns the
status string. -/
def check_job_status (job_id : String) (resp : HttpResponse) (st : St) : String × St :=
  (statusText resp, recordCall st (Call.pollCall job_id))

/-- `get_interproscan_results`: HTTP 200 yields the parsed document, anything
else (including a raised exception) yields `None`; no error is logged here
(the caller logs). -/
def get_interproscan_results (job_id : String) (resp : ResultResponse) (st : St) :
    Option (List (String × String)) × St :=
  let st := recordCall st (Call.retrieveCall job_id)
  match resp with
  | ResultResponse.ok code doc => if code = 200 then (some doc, st) else (none, st)
  | ResultResponse.exn _ => (none, st)

/-- Python truthiness of the retrieved results: `None` and the empty
dictionary are falsy. -/
def truthyDoc : Option (List (String × String)) → Bool
  | none => false
  | some d => !d.isEmpty

/-- How many times the loop body of `wait_for_completion` runs.  The Python
loop polls at `elapsed = 30 * k` (each sleep adds the hard-coded 30-second
`check_interval` to `time.time() - start_time`) while `elapsed < max_wait`,
so the body runs exactly for `k` with `30 * k < max_wait`: never when
`max_wait ≤ 0`, and `⌈max_wait / 30⌉ = (max_wait - 1) / 30 + 1` times
otherwise. -/
def numPolls (max_wait : Int) : Nat :=
  if max_wait ≤ 0 then 0 else ((max_wait - 1) / 30).toNat + 1

/-- The polling loop of `wait_for_completion`, indexed by the number of
remaining iterations (`numPolls` at the top call).  `statusResps n` is the
response to the `n`-th status request.  `FINISHED` triggers result retrieval
(incrementing `interproscan_completed` when the result is truthy),
`ERROR`/`FAILURE` logs a job failure, and every other status — `RUNNING` or
anything unrecognized — sleeps and re-polls.  Exhausting the iterations
(`elapsed < max_wait` failing) logs a timeout. -/
def waitLoop (job_id uniprot_id : String) (statusResps : Nat → HttpResponse)
    (resultResp : ResultResponse) (max_wait : Int) :
    Nat → Nat → St → Option (List (String × String)) × St
  | 0, _, st =>
    (none, addErrorSt (uniprot_id ++ ": Timed out after " ++ toString max_wait ++ " seconds") st)
  | fuel + 1, n, st =>
    let c := check_job_status job_id (statusResps n) st
    let status := c.1
    let st := c.2
    if status = "FINISHED" then
      let r := get_interproscan_results job_id resultResp st
      if truthyDoc r.1 then
        (r.1, incrementSt StatName.interproscan_completed r.2)
      else
        (none, addErrorSt (uniprot_id ++ ": Failed to retrieve results") r.2)
    else if status = "ERROR" ∨ status = "FAILURE" then
      (none, addErrorSt (uniprot_id ++ ": Job failed with status " ++ status) st)
    else
      waitLoop job_id uniprot_id statusResps resultResp max_wait fuel (n + 1) st

/-- `wait_for_completion`: run the polling loop with its full iteration
budget, starting from the first status request. -/
def wait_for_completion (job_id uniprot_id : String) (statusResps : Nat → HttpResponse)
    (resultResp : ResultResponse) (max_wait : Int) (st : St) :
    Option (List (String × String)) × St :=
  waitLoop job_id uniprot_id statusResps resultResp max_wait (numPolls max_wait) 0 st

/-! ### Result writer (`save_results`) -/

/-- Cut a character list into consecutive chunks of 80
(`range(0, len(sequence), 80)`). -/
def chunk80 (cs : List Char) : List (List Char) :=
  if cs.isEmpty then []
  else cs.take 80 :: chunk80 (cs.drop 80)
termination_by cs.length
decreasing_by
  simp only [List.length_drop]
  cases cs with
  | nil => simp_all
  | cons a t => simp; omega

/-- Path of the FASTA artifact: `output_dir / "sequences" / f"{id}.fasta"`. -/
def fastaPath (output_dir uniprot_id : String) : String :=
  output_dir ++ "/sequences/" ++ uniprot_id ++ ".fasta"

/-- Path of the JSON artifact:
`output_dir / "interproscan_results" / f"{id}.json"`. -/
def jsonPath (output_dir uniprot_id : String) : String :=
  output_dir ++ "/interproscan_results/" ++ uniprot_id ++ ".json"

/-- Bytes written to the FASTA file: the header line, then the sequence
wrapped to 80-character lines. -/
def fastaContent (description sequence : String) : String :=
  ">" ++ description ++ "\n" ++
    String.join ((chunk80 sequence.data).map fun cs => String.mk cs ++ "\n")

/-- Bytes written to the JSON file: a deterministic rendering of the result
document (`json.dump(results, f, indent=2)` is a pure function of
`results`). -/
def renderResult (doc : List (String × String)) : String :=
  String.intercalate "\n" (doc.map fun kv => kv.1 ++ ": " ++ kv.2)

/-- `save_results`: write the two artifacts.  A raised exception (`saveExn`,
modelled as raised before the writes) is caught, logged as a save error, and
not re-raised; it does not touch the counters. -/
def save_results (output_dir uniprot_id sequence description : String)
    (results : List (String × String)) (saveExn : Option String) (st : St) : St :=
  let st := recordCall st (Call.saveCall uniprot_id)
  match saveExn with
  | some e => addErrorSt (uniprot_id ++ ": Save error - " ++ e) st
  | none =>
    let st := { st with fs := setFile st.fs (fastaPath output_dir uniprot_id)
                                    (fastaContent description sequence) }
    { st with fs := setFile st.fs (jsonPath output_dir uniprot_id) (renderResult results) }

/-! ### The per-identifier pipeline -/

/-- The oracle for everything outside the program while processing one
identifier: the fetch response, the submit response, the stream of status
responses, the result-retrieval response, and whether the save raises. -/
structure Env where
  fetchResp : HttpResponse
  submitResp : HttpResponse
  statusResps : Nat → HttpResponse
  resultResp : ResultResponse
  saveExn : Option String

/-- `process_single_protein`: fetch, submit, wait, save, in that order, each
failure incrementing `failed` and returning `False` at once.
`wait_for_completion` is called with its default `max_wait = 3600`. -/
def process_single_protein (email output_dir uniprot_id : String) (env : Env) (st : St) :
    Bool × St :=
  let f := fetch_uniprot_sequence uniprot_id env.fetchResp st
  match f.1 with
  | none => (false, incrementSt StatName.failed f.2)
  | some sd =>
    let sequence := sd.1
    let description := sd.2
    let sub := submit_to_interproscan email uniprot_id sequence env.submitResp f.2
    match sub.1 with
    | none => (false, incrementSt StatName.failed sub.2)
    | some job_id =>
      let w := wait_for_completion job_id uniprot_id env.statusResps env.resultResp 3600 sub.2
      match w.1 with
      | none => (false, incrementSt StatName.failed w.2)
      | some results =>
        (true, save_results output_dir uniprot_id sequence description results env.saveExn w.2)

/-! ### The coordinator (`process_proteins`) -/

/-- Run the pipeline over every identifier.  The thread pool joins on all
futures, so a full run performs every per-identifier execution; the shared
state is only touched through the lock-protected helpers, so the aggregate
effect of a run equals a sequential fold of the per-identifier executions
over the state (the interleaving theorem below justifies the counters). -/
def runAll (email output_dir : String) (inputs : List (String × Env)) (st : St) : St :=
  inputs.foldl (fun acc p => (process_single_protein email output_dir p.1 p.2 acc).2) st

/-- `process_proteins`: abort (`sys.exit`) when no email is configured,
otherwise set `stats['total']` to the number of identifiers and process them
all. -/
def process_proteins (email output_dir : String) (inputs : List (String × Env)) (st : St) :
    Option St :=
  if email = "" then none
  else
    let st := { st with stats := { st.stats with total := inputs.length } }
    some (runAll email output_dir inputs st)

/-! ### Command-line entry point -/

/-- What `main` does before (or instead of) starting pipeline work. -/
inductive MainOutcome where
  | usageExit
  | emailExit
  | indexError
  | run (input_file output_dir email : String)
deriving DecidableEq, Repr

/-- The `main` function (the name `main` is reserved in Lean): `sys.argv`
includes the program name at index 0.  Fewer than
three entries prints the usage text and exits with status 1; otherwise
`sys.argv[1]`, `sys.argv[2]` are read and `sys.argv[3]` is accessed, raising
an uncaught `IndexError` when absent; an email without both `@` and `.`
prints a validation message and exits with status 1; otherwise the pipeline
runs. -/
def mainEntry (argv : List String) : MainOutcome :=
  if argv.length < 3 then MainOutcome.usageExit
  else
    let input_file := argv.getD 1 ""
    let output_dir := argv.getD 2 ""
    match argv.get? 3 with
    | none => MainOutcome.indexError
    | some email =>
      if pyContainsChar email (Char.ofNat 64) = false ∨ pyContainsChar email (Char.ofNat 46) = false then
        MainOutcome.emailExit
      else
        MainOutcome.run input_file output_dir email

/-! ### Atomic statistics events (for the concurrency claim)

Every mutation of the shared dictionary goes through `add_error` or
`increment_stat`, each of which holds `self.lock` for the whole update; a
concurrent run is therefore an interleaving of the workers' atomic update
events. -/

/-- One lock-protected update of the shared statistics. -/
inductive StatEvent where
  | inc (name : StatName)
  | logErr (msg : String)
deriving DecidableEq, Repr

/-- Apply one atomic update. -/
def applyEvent (s : Stats) : StatEvent → Stats
  | StatEvent.inc n => increment_stat n s
  | StatEvent.logErr m => add_error m s

/-- Apply a whole interleaved trace of updates. -/
def applyEvents (s : Stats) (t : List StatEvent) : Stats :=
  t.foldl applyEvent s

/-- How many events of a trace increment the given counter. -/
def countInc (c : StatName) (t : List StatEvent) : Nat :=
  t.countP fun e =>
    match e with
    | StatEvent.inc n => decide (n = c)
    | StatEvent.logErr _ => false

/-- The message of an error event, if any. -/
def errMsg : StatEvent → Option String
  | StatEvent.inc _ => none
  | StatEvent.logErr m => some m

/-! ### Concrete scenario oracles used by the testable properties -/

/-- Status stream observed as `RUNNING`, `RUNNING`, then `FINISHED`. -/
def srRRF : Nat → HttpResponse :=
  fun n => HttpResponse.ok 200 (if n < 2 then "RUNNING" else "FINISHED")

/-- Status stream observed as `RUNNING` then `FAILURE` forever. -/
def srRFail : Nat → HttpResponse :=
  fun n => HttpResponse.ok 200 (if n = 0 then "RUNNING" else "FAILURE")

/-- Status stream stuck on `RUNNING` forever. -/
def srAllRunning : Nat → HttpResponse :=
  fun _ => HttpResponse.ok 200 "RUNNING"

/-- A successful result retrieval carrying a non-empty document. -/
def rrOK : ResultResponse := ResultResponse.ok 200 [("results", "r")]

/-- Oracle for a straight-through success: the fetch parses, the submission
returns job id `jobA`, the first poll reports `FINISHED`, retrieval and save
succeed. -/
def envQuick : Env :=
  ⟨HttpResponse.ok 200 ">desc\nMKT", HttpResponse.ok 200 "jobA",
    fun _ => HttpResponse.ok 200 "FINISHED", rrOK, none⟩

/-- Oracle whose polls observe `RUNNING`, `RUNNING`, `FINISHED`. -/
def envRRF : Env :=
  ⟨HttpResponse.ok 200 ">desc\nMKT", HttpResponse.ok 200 "jobA", srRRF, rrOK, none⟩

/-- Oracle whose polls observe `RUNNING` then `FAILURE`. -/
def envRFail : Env :=
  ⟨HttpResponse.ok 200 ">desc\nMKT", HttpResponse.ok 200 "jobA", srRFail, rrOK, none⟩

/-- Oracle whose fetch returns HTTP 404 (nothing later should run). -/
def env404 : Env :=
  ⟨HttpResponse.ok 404 "", HttpResponse.exn "x", fun _ => HttpResponse.exn "x",
    ResultResponse.exn "x", none⟩

/-- Oracle whose fetch succeeds but whose submission is rejected with
HTTP 500 (no poll, retrieval or save should run). -/
def envSub500 : Env :=
  ⟨HttpResponse.ok 200 ">desc\nMKT", HttpResponse.ok 500 "rejected",
    fun _ => HttpResponse.exn "x", ResultResponse.exn "x", none⟩

/-! ## Basic state lemmas -/

theorem recordCall_stats (st : St) (c : Call) : (recordCall st c).stats = st.stats := rfl

theorem addErrorSt_stats (e : String) (st : St) :
    (addErrorSt e st).stats = add_error e st.stats := rfl

theorem add_error_counters (e : String) (s : Stats) :
    (add_error e s).failed = s.failed ∧ (add_error e s).total = s.total ∧
    (add_error e s).interproscan_completed = s.interproscan_completed ∧
    (add_error e s).sequences_fetched = s.sequences_fetched ∧
    (add_error e s).interproscan_submitted = s.interproscan_submitted := by
  simp [add_error]

/-- The fetch stage never touches `failed`, `total` or `interproscan_completed`. -/
theorem fetch_counters (uniprot_id : String) (resp : HttpResponse) (st : St) :
    ((fetch_uniprot_sequence uniprot_id resp st).2).stats.failed = st.stats.failed ∧
    ((fetch_uniprot_sequence uniprot_id resp st).2).stats.total = st.stats.total ∧
    ((fetch_uniprot_sequence uniprot_id resp st).2).stats.interproscan_completed
      = st.stats.interproscan_completed := by
  cases resp with
  | ok code body =>
    by_cases h : code = 200
    · by_cases h2 : 2 ≤ (pySplit (pyStrip body) (Char.ofNat 10)).length <;>
        simp [fetch_uniprot_sequence, h, h2, recordCall, incrementSt, increment_stat,
          addErrorSt, add_error]
    · simp [fetch_uniprot_sequence, h, recordCall, addErrorSt, add_error]
  | exn e => simp [fetch_uniprot_sequence, recordCall, addErrorSt, add_error]

/-- The submit stage never touches `failed`, `total` or `interproscan_completed`. -/
theorem submit_counters (email uniprot_id sequence : String) (resp : HttpResponse) (st : St) :
    ((submit_to_interproscan email uniprot_id sequence resp st).2).stats.failed
      = st.stats.failed ∧
    ((submit_to_interproscan email uniprot_id sequence resp st).2).stats.total
      = st.stats.total ∧
    ((submit_to_interproscan email uniprot_id sequence resp st).2).stats.interproscan_completed
      = st.stats.interproscan_completed := by
  cases resp with
  | ok code body =>
    by_cases h : code = 200 <;>
      simp [submit_to_interproscan, h, recordCall, incrementSt, increment_stat,
        addErrorSt, add_error]
  | exn e => simp [submit_to_interproscan, recordCall, addErrorSt, add_error]

/-- Result retrieval never touches the statistics at all. -/
theorem get_results_stats (job_id : String) (rr : ResultResponse) (st : St) :
    ((get_interproscan_results job_id rr st).2).stats = st.stats := by
  cases rr with
  | ok code doc =>
    by_cases h : code = 200 <;> simp [get_interproscan_results, h, recordCall]
  | exn e => simp [get_interproscan_results, recordCall]

/-- The result writer never touches the counters. -/
theorem save_counters (output_dir uniprot_id sequence description : String)
    (results : List (String × String)) (saveExn : Option String) (st : St) :
    (save_results output_dir uniprot_id sequence description results saveExn st).stats.failed
      = st.stats.failed ∧
    (save_results output_dir uniprot_id sequence description results saveExn st).stats.total
      = st.stats.total ∧
    (save_results output_dir uniprot_id sequence description results saveExn st).stats.interproscan_completed
      = st.stats.interproscan_completed := by
  cases saveExn <;> simp [save_results, recordCall, addErrorSt, add_error]

theorem truthyDoc_isSome (o : Option (List (String × String))) :
    truthyDoc o = true → o.isSome := by
  cases o <;> simp [truthyDoc]

/-- Statistics invariant of the polling loop: it never touches `failed`,
`total`, `sequences_fetched` or `interproscan_submitted`, and it adds one to
`interproscan_completed` exactly when it returns a result. -/
theorem waitLoop_counters (job_id uniprot_id : String) (sr : Nat → HttpResponse)
    (rr : ResultResponse) (mw : Int) :
    ∀ (fuel n : Nat) (st : St),
      ((waitLoop job_id uniprot_id sr rr mw fuel n st).2.stats.failed = st.stats.failed ∧
       (waitLoop job_id uniprot_id sr rr mw fuel n st).2.stats.total = st.stats.total ∧
       (waitLoop job_id uniprot_id sr rr mw fuel n st).2.stats.interproscan_completed
        = st.stats.interproscan_completed
          + (if (waitLoop job_id uniprot_id sr rr mw fuel n st).1.isSome then 1 else 0)) := by
  intro fuel
  induction fuel with
  | zero =>
    intro n st
    simp [waitLoop, addErrorSt, add_error]
  | succ fuel ih =>
    intro n st
    rw [waitLoop]
    simp only [check_job_status]
    by_cases hF : statusText (sr n) = "FINISHED"
    · rw [if_pos hF]
      by_cases hT : truthyDoc (get_interproscan_results job_id rr (recordCall st (Call.pollCall job_id))).1 = true
      · rw [if_pos hT]
        have hs := get_results_stats job_id rr (recordCall st (Call.pollCall job_id))
        have hSome := truthyDoc_isSome _ hT
        simp [incrementSt, increment_stat, hs, recordCall_stats, hSome]
      · rw [if_neg hT]
        have hs := get_results_stats job_id rr (recordCall st (Call.pollCall job_id))
        simp [addErrorSt, add_error, hs, recordCall_stats]
    · rw [if_neg hF]
      by_cases hE : statusText (sr n) = "ERROR" ∨ statusText (sr n) = "FAILURE"
      · rw [if_pos hE]
        simp [addErrorSt, add_error, recordCall_stats]
      · rw [if_neg hE]
        have := ih (n + 1) (recordCall st (Call.pollCall job_id))
        simpa [recordCall_stats] using this

/-- The statistics invariant of `wait_for_completion`. -/
theorem wait_counters (job_id uniprot_id : String) (sr : Nat → HttpResponse)
    (rr : ResultResponse) (mw : Int) (st : St) :
    ((wait_for_completion job_id uniprot_id sr rr mw st).2.stats.failed = st.stats.failed ∧
     (wait_for_completion job_id uniprot_id sr rr mw st).2.stats.total = st.stats.total ∧
     (wait_for_completion job_id uniprot_id sr rr mw st).2.stats.interproscan_completed
      = st.stats.interproscan_completed
        + (if (wait_for_completion job_id uniprot_id sr rr mw st).1.isSome then 1 else 0)) :=
  waitLoop_counters job_id uniprot_id sr rr mw (numPolls mw) 0 st

/-- When no polled status is ever `FINISHED`, `ERROR` or `FAILURE`, the loop
only ever sleeps and re-polls: it performs all its `fuel` polls and ends by
logging the timeout. -/
theorem waitLoop_nonterminal (job_id uniprot_id : String) (sr : Nat → HttpResponse)
    (rr : ResultResponse) (mw : Int)
    (hs : ∀ n, statusText (sr n) ≠ "FINISHED" ∧ statusText (sr n) ≠ "ERROR" ∧
      statusText (sr n) ≠ "FAILURE") :
    ∀ (fuel n : Nat) (st : St),
      waitLoop job_id uniprot_id sr rr mw fuel n st
        = (none,
            { st with
              stats := add_error (uniprot_id ++ ": Timed out after " ++ toString mw ++ " seconds") st.stats,
              calls := st.calls ++ List.replicate fuel (Call.pollCall job_id) }) := by
  intro fuel
  induction fuel with
  | zero =>
    intro n st
    simp [waitLoop, addErrorSt]
  | succ fuel ih =>
    intro n st
    rw [waitLoop]
    simp only [check_job_status]
    rw [if_neg (hs n).1, if_neg (by push_neg; exact ⟨(hs n).2.1, (hs n).2.2⟩)]
    rw [ih (n + 1) (recordCall st (Call.pollCall job_id))]
    simp [recordCall, List.replicate_succ, List.append_assoc]

/-- Each run of `process_single_protein` adds exactly one to
`interproscan_completed + failed` and leaves `total` unchanged. -/
theorem process_one_delta (email output_dir uniprot_id : String) (env : Env) (st : St) :
    ((process_single_protein email output_dir uniprot_id env st).2).stats.interproscan_completed
      + ((process_single_protein email output_dir uniprot_id env st).2).stats.failed
      = st.stats.interproscan_completed + st.stats.failed + 1 ∧
    ((process_single_protein email output_dir uniprot_id env st).2).stats.total
      = st.stats.total := by
  unfold process_single_protein
  obtain ⟨hff, hft, hfc⟩ := fetch_counters uniprot_id env.fetchResp st
  rcases hfetch : (fetch_uniprot_sequence uniprot_id env.fetchResp st).1 with _ | sd
  · simp only [hfetch]
    simp [incrementSt, increment_stat, hff, hft, hfc]
    omega
  · simp only [hfetch]
    obtain ⟨hsf, hst, hsc⟩ :=
      submit_counters email uniprot_id sd.1 env.submitResp (fetch_uniprot_sequence uniprot_id env.fetchResp st).2
    rcases hsub : (submit_to_interproscan email uniprot_id sd.1 env.submitResp
        (fetch_uniprot_sequence uniprot_id env.fetchResp st).2).1 with _ | job_id
    · simp only [hsub]
      simp [incrementSt, increment_stat, hsf, hst, hsc, hff, hft, hfc]
      omega
    · simp only [hsub]
      obtain ⟨hwf, hwt, hwc⟩ := wait_counters job_id uniprot_id env.statusResps env.resultResp 3600
        (submit_to_interproscan email uniprot_id sd.1 env.submitResp
          (fetch_uniprot_sequence uniprot_id env.fetchResp st).2).2
      rcases hw : (wait_for_completion job_id uniprot_id env.statusResps env.resultResp 3600
          (submit_to_interproscan email uniprot_id sd.1 env.submitResp
            (fetch_uniprot_sequence uniprot_id env.fetchResp st).2).2).1 with _ | results
      · simp only [hw]
        rw [hw] at hwc
        simp only [Option.isSome_none] at hwc
        simp [incrementSt, increment_stat, hwf, hwt, hwc, hsf, hst, hsc, hff, hft, hfc]
        omega
      · simp only [hw]
        rw [hw] at hwc
        simp only [Option.isSome_some] at hwc
        obtain ⟨hvf, hvt, hvc⟩ := save_counters output_dir uniprot_id sd.1 sd.2 results env.saveExn
          (wait_for_completion job_id uniprot_id env.statusResps env.resultResp 3600
            (submit_to_interproscan email uniprot_id sd.1 env.submitResp
              (fetch_uniprot_sequence uniprot_id env.fetchResp st).2).2).2
        simp [hvf, hvt, hvc, hwf, hwt, hwc, hsf, hst, hsc, hff, hft, hfc]
        omega

/-- Folding the pipeline over a list of identifiers adds its length to
`interproscan_completed + failed` and leaves `total` unchanged. -/
theorem runAll_delta (inputs : List (String × Env)) :
    ∀ (email output_dir : String) (st : St),
      ((runAll email output_dir inputs st).stats.interproscan_completed
        + (runAll email output_dir inputs st).stats.failed
        = st.stats.interproscan_completed + st.stats.failed + inputs.length) ∧
      (runAll email output_dir inputs st).stats.total = st.stats.total := by
  induction inputs with
  | nil => intro email od st; simp [runAll]
  | cons p rest ih =>
    intro email od st
    have hstep := process_one_delta email od p.1 p.2 st
    have htail := ih email od (process_single_protein email od p.1 p.2 st).2
    simp only [runAll, List.foldl_cons] at *
    constructor
    · rw [htail.1, hstep.1]
      simp [List.length_cons]
      omega
    · rw [htail.2, hstep.2]

/-- C1: after a full run over any identifier list, the statistics satisfy
`interproscan_completed + failed = total`: every identifier passes through
`process_single_protein` exactly once and each such pass increments exactly
one of the two counters, whichever pipeline stage fails. -/
theorem completed_plus_failed_eq_total (email output_dir : String)
    (inputs : List (String × Env)) (st' : St)
    (he : ¬ email = "")
    (hrun : process_proteins email output_dir inputs initSt = some st') :
    st'.stats.interproscan_completed + st'.stats.failed = st'.stats.total := by
  simp only [process_proteins, if_neg he, Option.some.injEq] at hrun
  rw [← hrun]
  rw [(runAll_delta inputs email output_dir _).1, (runAll_delta inputs email output_dir _).2]
  simp [initSt, initStats]

/-- Witness for C1 at a concrete run: the empty identifier list with a valid
email. -/
theorem completed_plus_failed_eq_total_witness :
    initSt.stats.interproscan_completed + initSt.stats.failed = initSt.stats.total :=
  completed_plus_failed_eq_total "a@b.c" "out" [] initSt (by decide) rfl

/-- Counterexample to C2: with every status poll raising a transport error
and a generous `max_wait` of 3600, `check_job_status` returns `"ERROR"` (not
a transient `Unknown`), and `wait_for_completion` stops after a single poll
with a job-failure log entry — it does not keep polling until timeout. -/
theorem poll_error_aborts_loop_counterexample :
    statusText (HttpResponse.exn "connection error") = "ERROR" ∧
    (wait_for_completion "J1" "P1" (fun _ => HttpResponse.exn "connection error")
      (ResultResponse.ok 200 [("results", "r")]) 3600 initSt).1 = none ∧
    (wait_for_completion "J1" "P1" (fun _ => HttpResponse.exn "connection error")
      (ResultResponse.ok 200 [("results", "r")]) 3600 initSt).2.stats.errors
      = ["P1: Job failed with status ERROR"] ∧
    (wait_for_completion "J1" "P1" (fun _ => HttpResponse.exn "connection error")
      (ResultResponse.ok 200 [("results", "r")]) 3600 initSt).2.calls
      = [Call.pollCall "J1"] := by
  refine ⟨rfl, ?_, ?_, ?_⟩ <;>
    simp [wait_for_completion, waitLoop, check_job_status, statusText, addErrorSt,
      add_error, recordCall, initSt, initStats]

/-- C2 as amended: a status poll that suffers a transport error or a
non-success HTTP status returns the string `"ERROR"`, and the wait loop
treats `"ERROR"` as a terminal job failure: it logs a job-failed error and
returns immediately after that single poll instead of polling until
timeout. -/
theorem poll_error_is_terminal (job_id uniprot_id : String) (sr : Nat → HttpResponse)
    (rr : ResultResponse) (mw : Int) (st : St)
    (h0 : 0 < mw) (hE : statusText (sr 0) = "ERROR") :
    (∀ msg, statusText (HttpResponse.exn msg) = "ERROR") ∧
    (∀ code body, ¬ code = 200 → statusText (HttpResponse.ok code body) = "ERROR") ∧
    (wait_for_completion job_id uniprot_id sr rr mw st).1 = none ∧
    (wait_for_completion job_id uniprot_id sr rr mw st).2.stats.errors
      = st.stats.errors ++ [uniprot_id ++ ": Job failed with status ERROR"] ∧
    (wait_for_completion job_id uniprot_id sr rr mw st).2.calls
      = st.calls ++ [Call.pollCall job_id] := by
  refine ⟨fun msg => rfl, fun code body hc => by simp [statusText, hc], ?_⟩
  have hn : numPolls mw = ((mw - 1) / 30).toNat + 1 := if_neg (by omega)
  unfold wait_for_completion
  rw [hn]
  have hlit : ": Job failed with status " ++ "ERROR" = ": Job failed with status ERROR" := rfl
  simp only [waitLoop, check_job_status]
  rw [if_neg (by rw [hE]; decide), if_pos (by rw [hE]; exact Or.inl rfl)]
  simp [hE, addErrorSt, add_error, recordCall, String.append_assoc, hlit]

/-- Witness for the amended C2 at a concrete transport error. -/
theorem poll_error_is_terminal_witness :
    (wait_for_completion "J1" "P1" (fun _ => HttpResponse.exn "boom")
      (ResultResponse.exn "x") 3600 initSt).1 = none ∧
    (wait_for_completion "J1" "P1" (fun _ => HttpResponse.exn "boom")
      (ResultResponse.exn "x") 3600 initSt).2.stats.errors
      = initSt.stats.errors ++ ["P1: Job failed with status ERROR"] ∧
    (wait_for_completion "J1" "P1" (fun _ => HttpResponse.exn "boom")
      (ResultResponse.exn "x") 3600 initSt).2.calls
      = initSt.calls ++ [Call.pollCall "J1"] :=
  (poll_error_is_terminal "J1" "P1" (fun _ => HttpResponse.exn "boom")
    (ResultResponse.exn "x") 3600 initSt (by omega) rfl).2.2

/-- C3: with polls observing `[RUNNING, RUNNING, FINISHED]` and a successful
retrieval, the wait returns the retrieved result and the pipeline run records
exactly one `interproscan_completed` increment (and no `failed` increment);
with a status sequence ending in `FAILURE` the run fails with a job-failed
log entry and exactly one `failed` increment (no `completed` increment); with
all-`RUNNING` polls past `max_wait = 60` the wait returns the timeout
failure. -/
theorem wait_outcome_scenarios (email output_dir : String) (st : St) :
    ((wait_for_completion "jobA" "PA" srRRF rrOK 3600 st).1 = some [("results", "r")] ∧
     (process_single_protein email output_dir "PA" envRRF st).1 = true ∧
     (process_single_protein email output_dir "PA" envRRF st).2.stats.interproscan_completed
       = st.stats.interproscan_completed + 1 ∧
     (process_single_protein email output_dir "PA" envRRF st).2.stats.failed
       = st.stats.failed) ∧
    ((process_single_protein email output_dir "PB" envRFail st).1 = false ∧
     (process_single_protein email output_dir "PB" envRFail st).2.stats.failed
       = st.stats.failed + 1 ∧
     (process_single_protein email output_dir "PB" envRFail st).2.stats.interproscan_completed
       = st.stats.interproscan_completed ∧
     (process_single_protein email output_dir "PB" envRFail st).2.stats.errors
       = st.stats.errors ++ ["PB: Job failed with status FAILURE"]) ∧
    ((wait_for_completion "jobC" "PC" srAllRunning rrOK 60 st).1 = none ∧
     (wait_for_completion "jobC" "PC" srAllRunning rrOK 60 st).2.stats.errors
       = st.stats.errors ++ ["PC: Timed out after 60 seconds"]) :=
  ⟨⟨rfl, rfl, rfl, rfl⟩, ⟨rfl, rfl, rfl, rfl⟩, ⟨rfl, rfl⟩⟩

/-- C5: while every polled status is unrecognized (neither `RUNNING`,
`FINISHED`, `ERROR` nor `FAILURE`), the loop treats it as transient — it
sleeps and re-polls through its whole polling budget, never treats the status
as fatal, and the only way it ends is the `max_wait` timeout: the result is
`None`, the only logged error is the timeout entry, and the call trace gains
exactly the `numPolls max_wait` status polls (in particular no result
retrieval). -/
theorem unrecognized_status_retried_until_timeout (job_id uniprot_id : String)
    (sr : Nat → HttpResponse) (rr : ResultResponse) (mw : Int) (st : St)
    (hs : ∀ n, statusText (sr n) ≠ "RUNNING" ∧ statusText (sr n) ≠ "FINISHED" ∧
      statusText (sr n) ≠ "ERROR" ∧ statusText (sr n) ≠ "FAILURE") :
    (wait_for_completion job_id uniprot_id sr rr mw st).1 = none ∧
    (wait_for_completion job_id uniprot_id sr rr mw st).2.stats.errors
      = st.stats.errors
        ++ [uniprot_id ++ ": Timed out after " ++ toString mw ++ " seconds"] ∧
    (wait_for_completion job_id uniprot_id sr rr mw st).2.calls
      = st.calls ++ List.replicate (numPolls mw) (Call.pollCall job_id) := by
  have h := waitLoop_nonterminal job_id uniprot_id sr rr mw
    (fun n => ⟨(hs n).2.1, (hs n).2.2.1, (hs n).2.2.2⟩) (numPolls mw) 0 st
  unfold wait_for_completion
  rw [h]
  simp [add_error]

/-- Witness for C5: the unrecognized status `PENDING` with `max_wait = 45`
(two polls). -/
theorem unrecognized_status_retried_until_timeout_witness :
    (wait_for_completion "J5" "P5" (fun _ => HttpResponse.ok 200 "PENDING")
      (ResultResponse.exn "x") 45 initSt).1 = none ∧
    (wait_for_completion "J5" "P5" (fun _ => HttpResponse.ok 200 "PENDING")
      (ResultResponse.exn "x") 45 initSt).2.stats.errors
      = initSt.stats.errors ++ ["P5: Timed out after " ++ toString (45 : Int) ++ " seconds"] ∧
    (wait_for_completion "J5" "P5" (fun _ => HttpResponse.ok 200 "PENDING")
      (ResultResponse.exn "x") 45 initSt).2.calls
      = initSt.calls ++ List.replicate (numPolls 45) (Call.pollCall "J5") :=
  unrecognized_status_retried_until_timeout "J5" "P5" (fun _ => HttpResponse.ok 200 "PENDING")
    (ResultResponse.exn "x") 45 initSt
    (fun _ =>
      show statusText (HttpResponse.ok 200 "PENDING") ≠ "RUNNING" ∧
          statusText (HttpResponse.ok 200 "PENDING") ≠ "FINISHED" ∧
          statusText (HttpResponse.ok 200 "PENDING") ≠ "ERROR" ∧
          statusText (HttpResponse.ok 200 "PENDING") ≠ "FAILURE" from
        ⟨by decide, by decide, by decide, by decide⟩)

theorem save_none_stats (output_dir uniprot_id sequence description : String)
    (results : List (String × String)) (st : St) :
    (save_results output_dir uniprot_id sequence description results none st).stats
      = st.stats := rfl

theorem save_some_errors (output_dir uniprot_id sequence description e : String)
    (results : List (String × String)) (st : St) :
    (save_results output_dir uniprot_id sequence description results (some e) st).stats.errors
      = st.stats.errors ++ [uniprot_id ++ ": Save error - " ++ e] := rfl

/-- C6: when the fetch, submit and wait stages succeed (equivalently, the run
with a succeeding save returns `True`), a raised save exception is only
logged: the run still returns `True`, `failed` stays untouched, and the error
log gains exactly the one save-error entry. -/
theorem save_failure_keeps_success (email output_dir uniprot_id e : String)
    (env : Env) (st : St)
    (h : (process_single_protein email output_dir uniprot_id
      { env with saveExn := none } st).1 = true) :
    (process_single_protein email output_dir uniprot_id
      { env with saveExn := some e } st).1 = true ∧
    (process_single_protein email output_dir uniprot_id
      { env with saveExn := some e } st).2.stats.failed = st.stats.failed ∧
    (process_single_protein email output_dir uniprot_id
      { env with saveExn := some e } st).2.stats.errors
      = (process_single_protein email output_dir uniprot_id
          { env with saveExn := none } st).2.stats.errors
        ++ [uniprot_id ++ ": Save error - " ++ e] := by
  rcases hf : (fetch_uniprot_sequence uniprot_id env.fetchResp st).1 with _ | sd
  · simp [process_single_protein, hf] at h
  · rcases hsub : (submit_to_interproscan email uniprot_id sd.1 env.submitResp
        (fetch_uniprot_sequence uniprot_id env.fetchResp st).2).1 with _ | job_id
    · simp [process_single_protein, hf, hsub] at h
    · rcases hw : (wait_for_completion job_id uniprot_id env.statusResps env.resultResp 3600
          (submit_to_interproscan email uniprot_id sd.1 env.submitResp
            (fetch_uniprot_sequence uniprot_id env.fetchResp st).2).2).1 with _ | results
      · simp [process_single_protein, hf, hsub, hw] at h
      · refine ⟨?_, ?_, ?_⟩
        · simp [process_single_protein, hf, hsub, hw]
        · simp only [process_single_protein, hf, hsub, hw]
          rw [(save_counters _ _ _ _ _ _ _).1, (wait_counters _ _ _ _ _ _).1,
            (submit_counters _ _ _ _ _).1, (fetch_counters _ _ _).1]
        · simp only [process_single_protein, hf, hsub, hw]
          rw [save_some_errors, save_none_stats]

/-- Witness for C6: a straight-through success whose save raises. -/
theorem save_failure_keeps_success_witness :
    (process_single_protein "a@b.c" "out" "P6"
      { envQuick with saveExn := some "disk full" } initSt).1 = true ∧
    (process_single_protein "a@b.c" "out" "P6"
      { envQuick with saveExn := some "disk full" } initSt).2.stats.failed
      = initSt.stats.failed ∧
    (process_single_protein "a@b.c" "out" "P6"
      { envQuick with saveExn := some "disk full" } initSt).2.stats.errors
      = (process_single_protein "a@b.c" "out" "P6"
          { envQuick with saveExn := none } initSt).2.stats.errors
        ++ ["P6" ++ ": Save error - " ++ "disk full"] :=
  save_failure_keeps_success "a@b.c" "out" "P6" "disk full" envQuick initSt rfl

/-- C7: the result writer is idempotent — saving the same
`(identifier, sequence, description, result)` twice leaves the file system
exactly as one save does (the second write replaces each artifact with the
same bytes), and the artifacts are a deterministic function of the
arguments. -/
theorem save_results_idempotent (output_dir uniprot_id sequence description : String)
    (results : List (String × String)) (st : St) :
    (save_results output_dir uniprot_id sequence description results none
      (save_results output_dir uniprot_id sequence description results none st)).fs
      = (save_results output_dir uniprot_id sequence description results none st).fs ∧
    (save_results output_dir uniprot_id sequence description results none st).fs
      (jsonPath output_dir uniprot_id) = some (renderResult results) := by
  constructor
  · funext q
    simp only [save_results, recordCall, setFile]
    split_ifs <;> rfl
  · simp [save_results, recordCall, setFile]

/-- C8 (code bug): the entry point demands three positional arguments and a
validated email, but its arity guard `len(sys.argv) < 3` counts the program
name, so with exactly two positional arguments (the email missing) control
passes the guard and `sys.argv[3]` raises an uncaught `IndexError` — the
process still dies with a non-zero status, but via a traceback instead of
the usage message.  With fewer arguments the usage exit fires, an email
without `@` or `.` is rejected, and a valid call runs the pipeline. -/
theorem missing_email_index_error :
    mainEntry ["interproscan_pipeline.py", "uniprot_ids.txt", "results"]
      = MainOutcome.indexError ∧
    mainEntry ["interproscan_pipeline.py", "uniprot_ids.txt"] = MainOutcome.usageExit ∧
    mainEntry ["interproscan_pipeline.py"] = MainOutcome.usageExit ∧
    mainEntry ["interproscan_pipeline.py", "uniprot_ids.txt", "results", "not-an-email"]
      = MainOutcome.emailExit ∧
    mainEntry ["interproscan_pipeline.py", "uniprot_ids.txt", "results", "user@example.com"]
      = MainOutcome.run "uniprot_ids.txt" "results" "user@example.com" :=
  ⟨rfl, rfl, rfl, rfl, rfl⟩

/-- Folding atomic updates: each counter ends at its start plus the number of
increment events for it, whatever the order. -/
theorem applyEvents_statGet (t : List StatEvent) :
    ∀ (s : Stats) (c : StatName),
      statGet (applyEvents s t) c = statGet s c + countInc c t := by
  induction t with
  | nil => intro s c; simp [applyEvents, countInc]
  | cons e t ih =>
    intro s c
    have hstep : statGet (applyEvent s e) c
        = statGet s c + (if (match e with
            | StatEvent.inc n => decide (n = c)
            | StatEvent.logErr _ => false) = true then 1 else 0) := by
      cases e with
      | inc n => cases n <;> cases c <;> simp [applyEvent, increment_stat, statGet]
      | logErr m => simp [applyEvent, add_error, statGet]
    calc statGet (applyEvents s (e :: t)) c
        = statGet (applyEvents (applyEvent s e) t) c := by simp [applyEvents]
      _ = statGet (applyEvent s e) c + countInc c t := ih (applyEvent s e) c
      _ = statGet s c + countInc c (e :: t) := by
          rw [hstep]; simp [countInc, List.countP_cons]; omega

/-- Folding atomic updates appends exactly the logged messages to the error
log, in trace order. -/
theorem applyEvents_errors (t : List StatEvent) :
    ∀ s : Stats, (applyEvents s t).errors = s.errors ++ t.filterMap errMsg := by
  induction t with
  | nil => intro s; simp [applyEvents]
  | cons e t ih =>
    intro s
    cases e with
    | inc n =>
      simp only [applyEvents, List.foldl_cons] at *
      rw [ih (applyEvent s (StatEvent.inc n))]
      cases n <;> simp [applyEvent, increment_stat, errMsg]
    | logErr m =>
      simp only [applyEvents, List.foldl_cons] at *
      rw [ih (applyEvent s (StatEvent.logErr m))]
      simp [applyEvent, add_error, errMsg]

/-- C9: every update of the shared statistics is one lock-protected atomic
event, so a concurrent run over any worker pool is an interleaving — a
permutation of the concatenation of the workers' event sequences that keeps
each worker's order.  For every such trace, no update is lost: each final
counter equals its start plus the sum of all workers' increments, and the
error log contains every message any worker appended. -/
theorem stats_updates_linearize (workers : List (List StatEvent))
    (trace : List StatEvent) (s : Stats)
    (hperm : List.Perm trace workers.flatten) :
    (∀ c, statGet (applyEvents s trace) c = statGet s c + countInc c workers.flatten) ∧
    (∀ m, StatEvent.logErr m ∈ workers.flatten → m ∈ (applyEvents s trace).errors) := by
  constructor
  · intro c
    rw [applyEvents_statGet]
    have : countInc c trace = countInc c workers.flatten := hperm.countP_eq _
    omega
  · intro m hm
    have hj : m ∈ (workers.flatten).filterMap errMsg :=
      List.mem_filterMap.mpr ⟨StatEvent.logErr m, hm, rfl⟩
    have ht : m ∈ trace.filterMap errMsg := (hperm.filterMap errMsg).mem_iff.mpr hj
    rw [applyEvents_errors]
    exact List.mem_append_right _ ht

/-- Witness for C9: two workers, one completing and one failing with an
error, observed in an interleaved order. -/
theorem stats_updates_linearize_witness :
    (statGet (applyEvents initStats
        [StatEvent.logErr "P2: boom", StatEvent.inc StatName.interproscan_completed,
          StatEvent.inc StatName.failed]) StatName.failed
      = statGet initStats StatName.failed
        + countInc StatName.failed
            ([[StatEvent.inc StatName.interproscan_completed],
              [StatEvent.logErr "P2: boom", StatEvent.inc StatName.failed]] : List (List StatEvent)).flatten) ∧
    "P2: boom" ∈ (applyEvents initStats
        [StatEvent.logErr "P2: boom", StatEvent.inc StatName.interproscan_completed,
          StatEvent.inc StatName.failed]).errors :=
  ⟨(stats_updates_linearize
      [[StatEvent.inc StatName.interproscan_completed],
        [StatEvent.logErr "P2: boom", StatEvent.inc StatName.failed]]
      [StatEvent.logErr "P2: boom", StatEvent.inc StatName.interproscan_completed,
        StatEvent.inc StatName.failed] initStats (by decide)).1 StatName.failed,
    (stats_updates_linearize
      [[StatEvent.inc StatName.interproscan_completed],
        [StatEvent.logErr "P2: boom", StatEvent.inc StatName.failed]]
      [StatEvent.logErr "P2: boom", StatEvent.inc StatName.interproscan_completed,
        StatEvent.inc StatName.failed] initStats (by decide)).2 "P2: boom" (by decide)⟩

/-- C10: with `max_wait ≤ 0` the loop guard `elapsed < max_wait` is false at
once: no status poll happens (even when the very first poll would have
reported `FINISHED`), the timeout entry is logged, and the timeout failure
(`None`) is returned. -/
theorem nonpositive_max_wait_times_out (job_id uniprot_id : String)
    (sr : Nat → HttpResponse) (rr : ResultResponse) (mw : Int) (st : St)
    (h : mw ≤ 0) :
    (wait_for_completion job_id uniprot_id sr rr mw st).1 = none ∧
    (wait_for_completion job_id uniprot_id sr rr mw st).2.stats.errors
      = st.stats.errors
        ++ [uniprot_id ++ ": Timed out after " ++ toString mw ++ " seconds"] ∧
    (wait_for_completion job_id uniprot_id sr rr mw st).2.calls = st.calls := by
  have hn : numPolls mw = 0 := if_pos h
  unfold wait_for_completion
  rw [hn]
  simp [waitLoop, addErrorSt, add_error]

/-- Witness for C10: `max_wait = 0` with a job that would report `FINISHED`
on the first poll. -/
theorem nonpositive_max_wait_times_out_witness :
    (wait_for_completion "J0" "P0" (fun _ => HttpResponse.ok 200 "FINISHED")
      rrOK 0 initSt).1 = none ∧
    (wait_for_completion "J0" "P0" (fun _ => HttpResponse.ok 200 "FINISHED")
      rrOK 0 initSt).2.stats.errors
      = initSt.stats.errors ++ ["P0" ++ ": Timed out after " ++ toString (0 : Int) ++ " seconds"] ∧
    (wait_for_completion "J0" "P0" (fun _ => HttpResponse.ok 200 "FINISHED")
      rrOK 0 initSt).2.calls = initSt.calls :=
  nonpositive_max_wait_times_out "J0" "P0" (fun _ => HttpResponse.ok 200 "FINISHED")
    rrOK 0 initSt (by decide)

/-- The fetch stage records exactly its own call, on every path. -/
theorem fetch_calls (uniprot_id : String) (resp : HttpResponse) (st : St) :
    (fetch_uniprot_sequence uniprot_id resp st).2.calls
      = st.calls ++ [Call.fetchCall uniprot_id] := by
  cases resp with
  | ok code body =>
    by_cases h : code = 200
    · by_cases h2 : 2 ≤ (pySplit (pyStrip body) (Char.ofNat 10)).length <;>
        simp [fetch_uniprot_sequence, h, h2, recordCall, incrementSt, addErrorSt]
    · simp [fetch_uniprot_sequence, h, recordCall, addErrorSt]
  | exn e => simp [fetch_uniprot_sequence, recordCall, addErrorSt]

/-- The submit stage records exactly its own call, on every path. -/
theorem submit_calls (email uniprot_id sequence : String) (resp : HttpResponse) (st : St) :
    (submit_to_interproscan email uniprot_id sequence resp st).2.calls
      = st.calls ++ [Call.submitCall uniprot_id] := by
  cases resp with
  | ok code body =>
    by_cases h : code = 200 <;>
      simp [submit_to_interproscan, h, recordCall, incrementSt, addErrorSt]
  | exn e => simp [submit_to_interproscan, recordCall, addErrorSt]

/-- Result retrieval records exactly its own call, on every path. -/
theorem get_results_calls (job_id : String) (rr : ResultResponse) (st : St) :
    (get_interproscan_results job_id rr st).2.calls
      = st.calls ++ [Call.retrieveCall job_id] := by
  cases rr with
  | ok code doc => by_cases h : code = 200 <;> simp [get_interproscan_results, h, recordCall]
  | exn e => simp [get_interproscan_results, recordCall]

/-- The result writer records exactly its own call, on every path. -/
theorem save_calls (output_dir uniprot_id sequence description : String)
    (results : List (String × String)) (saveExn : Option String) (st : St) :
    (save_results output_dir uniprot_id sequence description results saveExn st).calls
      = st.calls ++ [Call.saveCall uniprot_id] := by
  cases saveExn <;> simp [save_results, recordCall, addErrorSt]

/-- The polling loop only ever records status polls and result retrievals
for its own job — never a fetch, submit or save. -/
theorem waitLoop_calls (job_id uniprot_id : String) (sr : Nat → HttpResponse)
    (rr : ResultResponse) (mw : Int) :
    ∀ (fuel n : Nat) (st : St), ∃ tail,
      (waitLoop job_id uniprot_id sr rr mw fuel n st).2.calls = st.calls ++ tail ∧
      ∀ c ∈ tail, c = Call.pollCall job_id ∨ c = Call.retrieveCall job_id := by
  intro fuel
  induction fuel with
  | zero =>
    intro n st
    exact ⟨[], by simp [waitLoop, addErrorSt], by simp⟩
  | succ fuel ih =>
    intro n st
    rw [waitLoop]
    simp only [check_job_status]
    by_cases hF : statusText (sr n) = "FINISHED"
    · rw [if_pos hF]
      by_cases hT : truthyDoc (get_interproscan_results job_id rr
          (recordCall st (Call.pollCall job_id))).1 = true
      · rw [if_pos hT]
        refine ⟨[Call.pollCall job_id, Call.retrieveCall job_id], ?_, ?_⟩
        · simp [incrementSt, get_results_calls, recordCall]
        · intro c hc
          simp only [List.mem_cons, List.not_mem_nil, or_false] at hc
          rcases hc with rfl | rfl
          exacts [Or.inl rfl, Or.inr rfl]
      · rw [if_neg hT]
        refine ⟨[Call.pollCall job_id, Call.retrieveCall job_id], ?_, ?_⟩
        · simp [addErrorSt, get_results_calls, recordCall]
        · intro c hc
          simp only [List.mem_cons, List.not_mem_nil, or_false] at hc
          rcases hc with rfl | rfl
          exacts [Or.inl rfl, Or.inr rfl]
    · rw [if_neg hF]
      by_cases hE : statusText (sr n) = "ERROR" ∨ statusText (sr n) = "FAILURE"
      · rw [if_pos hE]
        refine ⟨[Call.pollCall job_id], ?_, ?_⟩
        · simp [addErrorSt, recordCall]
        · intro c hc
          simp only [List.mem_cons, List.not_mem_nil, or_false] at hc
          rcases hc with rfl
          exact Or.inl rfl
      · rw [if_neg hE]
        obtain ⟨tail, htail, hmem⟩ := ih (n + 1) (recordCall st (Call.pollCall job_id))
        refine ⟨Call.pollCall job_id :: tail, ?_, ?_⟩
        · rw [htail]
          simp [recordCall]
        · intro c hc
          rcases List.mem_cons.mp hc with rfl | h
          · exact Or.inl rfl
          · exact hmem c h

/-- `wait_for_completion` only ever records polls and retrievals for its own
job. -/
theorem wait_calls (job_id uniprot_id : String) (sr : Nat → HttpResponse)
    (rr : ResultResponse) (mw : Int) (st : St) :
    ∃ tail,
      (wait_for_completion job_id uniprot_id sr rr mw st).2.calls = st.calls ++ tail ∧
      ∀ c ∈ tail, c = Call.pollCall job_id ∨ c = Call.retrieveCall job_id :=
  waitLoop_calls job_id uniprot_id sr rr mw (numPolls mw) 0 st

/-- C4: the four stages run strictly in order — fetch, submit, wait, save —
short-circuiting to a failure outcome (with one `failed` increment) at the
first stage error and never invoking a later stage after an earlier failure,
for every identifier, oracle and starting state: a fetch failure leaves the
fetch as the only call; a submit failure leaves exactly the fetch and submit
calls (no poll, retrieval or save); a wait failure adds only status polls
and retrievals for its own job (no save); and on full success the save runs
last, on exactly the fetched sequence/description and retrieved result.  In
particular, when the fetch returns HTTP 404 the outcome is failure, `failed`
gains one, exactly one error entry mentioning the identifier and the HTTP
status is appended, and no submit, poll, retrieval or save call occurs. -/
theorem pipeline_stage_order_short_circuits (email output_dir uniprot_id : String)
    (env : Env) (st : St) :
    ((fetch_uniprot_sequence uniprot_id env.fetchResp st).1 = none →
      (process_single_protein email output_dir uniprot_id env st).1 = false ∧
      (process_single_protein email output_dir uniprot_id env st).2.stats.failed
        = st.stats.failed + 1 ∧
      (process_single_protein email output_dir uniprot_id env st).2.calls
        = st.calls ++ [Call.fetchCall uniprot_id]) ∧
    (∀ sd, (fetch_uniprot_sequence uniprot_id env.fetchResp st).1 = some sd →
      (submit_to_interproscan email uniprot_id sd.1 env.submitResp
        (fetch_uniprot_sequence uniprot_id env.fetchResp st).2).1 = none →
      (process_single_protein email output_dir uniprot_id env st).1 = false ∧
      (process_single_protein email output_dir uniprot_id env st).2.stats.failed
        = st.stats.failed + 1 ∧
      (process_single_protein email output_dir uniprot_id env st).2.calls
        = st.calls ++ [Call.fetchCall uniprot_id, Call.submitCall uniprot_id]) ∧
    (∀ sd job_id, (fetch_uniprot_sequence uniprot_id env.fetchResp st).1 = some sd →
      (submit_to_interproscan email uniprot_id sd.1 env.submitResp
        (fetch_uniprot_sequence uniprot_id env.fetchResp st).2).1 = some job_id →
      (wait_for_completion job_id uniprot_id env.statusResps env.resultResp 3600
        (submit_to_interproscan email uniprot_id sd.1 env.submitResp
          (fetch_uniprot_sequence uniprot_id env.fetchResp st).2).2).1 = none →
      (process_single_protein email output_dir uniprot_id env st).1 = false ∧
      (process_single_protein email output_dir uniprot_id env st).2.stats.failed
        = st.stats.failed + 1 ∧
      ∃ tail,
        (process_single_protein email output_dir uniprot_id env st).2.calls
          = st.calls ++ [Call.fetchCall uniprot_id, Call.submitCall uniprot_id] ++ tail ∧
        ∀ c ∈ tail, c = Call.pollCall job_id ∨ c = Call.retrieveCall job_id) ∧
    (∀ sd job_id results,
      (fetch_uniprot_sequence uniprot_id env.fetchResp st).1 = some sd →
      (submit_to_interproscan email uniprot_id sd.1 env.submitResp
        (fetch_uniprot_sequence uniprot_id env.fetchResp st).2).1 = some job_id →
      (wait_for_completion job_id uniprot_id env.statusResps env.resultResp 3600
        (submit_to_interproscan email uniprot_id sd.1 env.submitResp
          (fetch_uniprot_sequence uniprot_id env.fetchResp st).2).2).1 = some results →
      process_single_protein email output_dir uniprot_id env st
        = (true, save_results output_dir uniprot_id sd.1 sd.2 results env.saveExn
            (wait_for_completion job_id uniprot_id env.statusResps env.resultResp 3600
              (submit_to_interproscan email uniprot_id sd.1 env.submitResp
                (fetch_uniprot_sequence uniprot_id env.fetchResp st).2).2).2) ∧
      (process_single_protein email output_dir uniprot_id env st).2.calls
        = (wait_for_completion job_id uniprot_id env.statusResps env.resultResp 3600
            (submit_to_interproscan email uniprot_id sd.1 env.submitResp
              (fetch_uniprot_sequence uniprot_id env.fetchResp st).2).2).2.calls
          ++ [Call.saveCall uniprot_id]) ∧
    (∀ (sub : HttpResponse) (sr : Nat → HttpResponse) (rr : ResultResponse)
        (se : Option String),
      (process_single_protein email output_dir "BADID" ⟨HttpResponse.ok 404 "", sub, sr, rr, se⟩ st).1
        = false ∧
      (process_single_protein email output_dir "BADID" ⟨HttpResponse.ok 404 "", sub, sr, rr, se⟩ st).2.stats.failed
        = st.stats.failed + 1 ∧
      (process_single_protein email output_dir "BADID" ⟨HttpResponse.ok 404 "", sub, sr, rr, se⟩ st).2.stats.errors
        = st.stats.errors ++ ["BADID: UniProt fetch failed - HTTP 404"] ∧
      (process_single_protein email output_dir "BADID" ⟨HttpResponse.ok 404 "", sub, sr, rr, se⟩ st).2.calls
        = st.calls ++ [Call.fetchCall "BADID"] ∧
      (∃ t u : String, "BADID: UniProt fetch failed - HTTP 404" = t ++ "BADID" ++ u) ∧
      (∃ t u : String, "BADID: UniProt fetch failed - HTTP 404" = t ++ "404" ++ u)) := by
  refine ⟨?_, ?_, ?_, ?_, ?_⟩
  · intro hf
    simp only [process_single_protein, hf]
    refine ⟨trivial, ?_, ?_⟩
    · simp [incrementSt, increment_stat, (fetch_counters uniprot_id env.fetchResp st).1]
    · simp [incrementSt, fetch_calls]
  · intro sd hf hs
    simp only [process_single_protein, hf, hs]
    refine ⟨trivial, ?_, ?_⟩
    · simp [incrementSt, increment_stat,
        (submit_counters email uniprot_id sd.1 env.submitResp _).1,
        (fetch_counters uniprot_id env.fetchResp st).1]
    · simp [incrementSt, submit_calls, fetch_calls]
  · intro sd job_id hf hs hw
    simp only [process_single_protein, hf, hs, hw]
    refine ⟨trivial, ?_, ?_⟩
    · simp [incrementSt, increment_stat,
        (wait_counters job_id uniprot_id env.statusResps env.resultResp 3600 _).1,
        (submit_counters email uniprot_id sd.1 env.submitResp _).1,
        (fetch_counters uniprot_id env.fetchResp st).1]
    · obtain ⟨tail, htail, hmem⟩ := wait_calls job_id uniprot_id env.statusResps
        env.resultResp 3600 (submit_to_interproscan email uniprot_id sd.1 env.submitResp
          (fetch_uniprot_sequence uniprot_id env.fetchResp st).2).2
      refine ⟨tail, ?_, hmem⟩
      simp only [incrementSt]
      rw [htail, submit_calls, fetch_calls]
      simp [List.append_assoc]
  · intro sd job_id results hf hs hw
    simp only [process_single_protein, hf, hs, hw]
    exact ⟨trivial, save_calls output_dir uniprot_id sd.1 sd.2 results env.saveExn _⟩
  · intro sub sr rr se
    exact ⟨rfl, rfl, rfl, rfl, ⟨"", ": UniProt fetch failed - HTTP 404", rfl⟩,
      ⟨"BADID: UniProt fetch failed - HTTP ", "", rfl⟩⟩

/-- Witness for C4, discharging the hypotheses of all four stage cases at
concrete oracles: a 404 fetch, a rejected submission, a failed job, and a
straight-through success. -/
theorem pipeline_stage_order_short_circuits_witness :
    ((process_single_protein "a@b.c" "out" "BADID" env404 initSt).1 = false ∧
     (process_single_protein "a@b.c" "out" "BADID" env404 initSt).2.stats.failed
       = initSt.stats.failed + 1 ∧
     (process_single_protein "a@b.c" "out" "BADID" env404 initSt).2.calls
       = initSt.calls ++ [Call.fetchCall "BADID"]) ∧
    ((process_single_protein "a@b.c" "out" "PB" envSub500 initSt).1 = false ∧
     (process_single_protein "a@b.c" "out" "PB" envSub500 initSt).2.stats.failed
       = initSt.stats.failed + 1 ∧
     (process_single_protein "a@b.c" "out" "PB" envSub500 initSt).2.calls
       = initSt.calls ++ [Call.fetchCall "PB", Call.submitCall "PB"]) ∧
    ((process_single_protein "a@b.c" "out" "PC" envRFail initSt).1 = false ∧
     (process_single_protein "a@b.c" "out" "PC" envRFail initSt).2.stats.failed
       = initSt.stats.failed + 1 ∧
     ∃ tail,
       (process_single_protein "a@b.c" "out" "PC" envRFail initSt).2.calls
         = initSt.calls ++ [Call.fetchCall "PC", Call.submitCall "PC"] ++ tail ∧
       ∀ c ∈ tail, c = Call.pollCall "jobA" ∨ c = Call.retrieveCall "jobA") ∧
    (process_single_protein "a@b.c" "out" "P6" envQuick initSt
       = (true, save_results "out" "P6" "MKT" "desc" [("results", "r")] none
           (wait_for_completion "jobA" "P6" envQuick.statusResps envQuick.resultResp 3600
             (submit_to_interproscan "a@b.c" "P6" "MKT" envQuick.submitResp
               (fetch_uniprot_sequence "P6" envQuick.fetchResp initSt).2).2).2) ∧
     (process_single_protein "a@b.c" "out" "P6" envQuick initSt).2.calls
       = (wait_for_completion "jobA" "P6" envQuick.statusResps envQuick.resultResp 3600
           (submit_to_interproscan "a@b.c" "P6" "MKT" envQuick.submitResp
             (fetch_uniprot_sequence "P6" envQuick.fetchResp initSt).2).2).2.calls
         ++ [Call.saveCall "P6"]) :=
  ⟨(pipeline_stage_order_short_circuits "a@b.c" "out" "BADID" env404 initSt).1 rfl,
   (pipeline_stage_order_short_circuits "a@b.c" "out" "PB" envSub500 initSt).2.1
     ("MKT", "desc") rfl rfl,
   (pipeline_stage_order_short_circuits "a@b.c" "out" "PC" envRFail initSt).2.2.1
     ("MKT", "desc") "jobA" rfl rfl rfl,
   (pipeline_stage_order_short_circuits "a@b.c" "out" "P6" envQuick initSt).2.2.2.1
     ("MKT", "desc") "jobA" [("results", "r")] rfl rfl rfl⟩
